import Mathlib

/-!
Shallow embedding of the Onigiri SSH tunnel manager (src/src/main.rs).

The OS-facing effects (process spawn, non-blocking liveness probe,
kill, SQLite writes) are modelled by passing their outcomes in as
explicit parameters, and every operation additionally returns the list
of observable side effects (`Event`) it performed, in program order.
`Event.diag` records an error-level log line (the `error!` macro);
`debug!`/`info!`/`trace!` lines are not modelled.
-/

namespace Onigiri

/-- `Result<(), String>` values are compared in witnesses, so equality
must be decidable. -/
instance : DecidableEq (Except String Unit) := fun a b =>
  match a, b with
  | .ok (), .ok () => isTrue rfl
  | .error e₁, .error e₂ =>
    if h : e₁ = e₂ then isTrue (by rw [h])
    else isFalse (fun hc => h (by cases hc; rfl))
  | .ok (), .error _ => isFalse (fun hc => by cases hc)
  | .error _, .ok () => isFalse (fun hc => by cases hc)

/-- Process identifier of a spawned child process. -/
abbrev Pid := Nat

/-- Result of a non-blocking liveness probe (`Child::try_wait`):
`running` for `Ok(None)`, `exited status` for `Ok(Some(status))`,
`probeErr e` for `Err(e)`. -/
inductive ProbeResult where
  | running : ProbeResult
  | exited (status : Int) : ProbeResult
  | probeErr (msg : String) : ProbeResult
deriving DecidableEq, Repr

/-- Outcome of `Command::new("ssh").args(..).spawn()` together with the
first `try_wait` probe of the child when the spawn itself succeeded. -/
inductive SpawnOutcome where
  | spawnErr (msg : String) : SpawnOutcome
  | spawned (pid : Pid) (firstProbe : ProbeResult) : SpawnOutcome
deriving DecidableEq, Repr

/-- Observable side effects of the registry operations, in program order.
`spawn args` is a `Command::spawn` attempt with the given argv tail,
`kill pid` a `Child::kill` request, `dbWrite` a successful SQLite write,
`diag msg` an error-level log line. -/
inductive Event where
  | spawn (args : List String) : Event
  | kill (pid : Pid) : Event
  | dbWrite : Event
  | diag (msg : String) : Event
deriving DecidableEq, Repr

/-- Runtime record for one tunnel (struct `TunnelInfo`): connection
parameters snapshotted from the store plus the owned child process,
modelled by its pid. Ports are `u16` values, kept as `Nat`. -/
structure TunnelInfo where
  id : Int
  name : String
  ssh_server : String
  local_ip : String
  local_port : Nat
  remote_ip : String
  remote_port : Nat
  process : Option Pid
deriving DecidableEq, Repr

/-- One row of the SQLite `tunnels` table. -/
structure Row where
  id : Int
  name : String
  command : String
  ssh_server : String
  local_ip : String
  local_port : Nat
  remote_ip : String
  remote_port : Nat
  active : Bool
  deleted : Bool
deriving DecidableEq, Repr

/-- In-memory list element (struct `Tunnel`) loaded from the table. -/
structure Tunnel where
  id : Int
  name : String
  command : String
  ssh_server : String
  local_ip : String
  local_port : Nat
  remote_ip : String
  remote_port : Nat
  active : Bool
  deleted : Bool
deriving DecidableEq, Repr

/-- The edit/new form (struct `NewTunnelForm`); ports are free text.
The per-field error messages are presentation-only and not modelled. -/
structure NewTunnelForm where
  name : String
  ssh_server : String
  local_ip : String
  local_port : String
  remote_ip : String
  remote_port : String
deriving DecidableEq, Repr

/-- The registry map `HashMap<i64, TunnelInfo>`, modelled as an
association list (iteration order fixes the HashMap's arbitrary order). -/
abbrev AMap := List (Int × TunnelInfo)

/-- `HashMap::get`. -/
def AMap.find? (m : AMap) (id : Int) : Option TunnelInfo :=
  (List.find? (fun e => e.1 == id) m).map Prod.snd

/-- `HashMap::remove` (the removed value, when needed, is read off with
`AMap.find?` first). -/
def AMap.erase (m : AMap) (id : Int) : AMap :=
  m.filter (fun e => e.1 != id)

/-- `HashMap::insert`: the new binding replaces any existing one. -/
def AMap.insert (m : AMap) (id : Int) (v : TunnelInfo) : AMap :=
  (id, v) :: AMap.erase m id

/-- Key set of the registry map. -/
def AMap.keys (m : AMap) : List Int :=
  m.map Prod.fst

/-- The SQLite `tunnels` table as a list of rows in insertion order. -/
abbrev DB := List Row

/-- `SELECT .. FROM tunnels WHERE id = ?` via `query_row`: the first
matching row, if any (no `deleted` filter, as in the source). -/
def DB.findRow (db : DB) (id : Int) : Option Row :=
  List.find? (fun r => r.id == id) db

/-- `UPDATE tunnels SET .. WHERE id = ?`: rewrites every row whose id
matches (no `deleted` filter, as in the source). -/
def DB.update (db : DB) (id : Int) (f : Row → Row) : DB :=
  db.map (fun r => if r.id == id then f r else r)

/-- Argv tail of the spawned command:
`ssh -N -p 22 <server> -L <local_ip>:<local_port>:<remote_ip>:<remote_port>`. -/
def sshArgs (t : TunnelInfo) : List String :=
  ["-N", "-p", "22", t.ssh_server, "-L",
   t.local_ip ++ ":" ++ toString t.local_port ++ ":" ++
     t.remote_ip ++ ":" ++ toString t.remote_port]

/-- Result of `TunnelInfo::start_tunnel`. -/
structure StartResult where
  info : TunnelInfo
  res : Except String Unit
  events : List Event
deriving DecidableEq, Repr

/-- `TunnelInfo::start_tunnel`: no-op success if a process is already
owned; otherwise spawn, then probe once; the handle is kept only when
the first probe reports the child still running. -/
def start_tunnel (t : TunnelInfo) (os : SpawnOutcome) : StartResult :=
  if t.process.isSome then
    { info := t, res := .ok (), events := [] }
  else
    match os with
    | .spawnErr e =>
      { info := t, res := .error ("Failed to start tunnel: " ++ e),
        events := [.spawn (sshArgs t)] }
    | .spawned pid probe =>
      match probe with
      | .exited status =>
        { info := t,
          res := .error ("SSH process exited immediately with status " ++ toString status),
          events := [.spawn (sshArgs t)] }
      | .running =>
        { info := { t with process := some pid }, res := .ok (),
          events := [.spawn (sshArgs t)] }
      | .probeErr e =>
        { info := t, res := .error ("Error checking tunnel process: " ++ e),
          events := [.spawn (sshArgs t)] }

/-- Result of `TunnelInfo::stop_tunnel`; note there is no error channel:
the Rust function returns `()`. -/
structure StopResult where
  info : TunnelInfo
  events : List Event
deriving DecidableEq, Repr

/-- `TunnelInfo::stop_tunnel`: `process.take()` drops the handle
unconditionally; a kill failure is only logged. -/
def stop_tunnel (t : TunnelInfo) (killResult : Except String Unit) : StopResult :=
  match t.process with
  | some pid =>
    { info := { t with process := none },
      events := [Event.kill pid] ++
        (match killResult with
         | .error e => [Event.diag ("Failed to stop tunnel " ++ t.name ++ ": " ++ e)]
         | .ok _ => []) }
  | none => { info := t, events := [] }

/-- Result of `TunnelInfo::is_active`. -/
structure ProbeOut where
  info : TunnelInfo
  active : Bool
  events : List Event
deriving DecidableEq, Repr

/-- `TunnelInfo::is_active`: probes the owned process (if any); on exit
or probe error the handle is dropped and `false` returned. -/
def is_active (t : TunnelInfo) (probe : Pid → ProbeResult) : ProbeOut :=
  match t.process with
  | some pid =>
    match probe pid with
    | .exited _ => { info := { t with process := none }, active := false, events := [] }
    | .running => { info := t, active := true, events := [] }
    | .probeErr e =>
      { info := { t with process := none }, active := false,
        events := [Event.diag ("Error checking tunnel " ++ t.name ++ " status: " ++ e)] }
  | none => { info := t, active := false, events := [] }

/-- Application state (struct `Tunneler`); the purely presentational
fields (search text, expansion set, window flags, the new-tunnel form)
are omitted, the edit form is kept because `save_edited_tunnel` reads it. -/
structure Tunneler where
  db : DB
  tunnels : List Tunnel
  active_tunnels : AMap
  edit_tunnel : Option (Int × NewTunnelForm)
deriving DecidableEq, Repr

/-- Result of the stateful `Tunneler` operations that return `Result`. -/
structure OpResult where
  state : Tunneler
  res : Except String Unit
  events : List Event
deriving DecidableEq, Repr

/-- A row read back into a `TunnelInfo` (the `query_row` closure in
`toggle_tunnel`), with no process attached yet. -/
def rowToInfo (r : Row) : TunnelInfo :=
  { id := r.id, name := r.name, ssh_server := r.ssh_server,
    local_ip := r.local_ip, local_port := r.local_port,
    remote_ip := r.remote_ip, remote_port := r.remote_port, process := none }

/-- A row read back into an in-memory `Tunnel` (the `query_map` closure
in `load_tunnels`). -/
def rowToTunnel (r : Row) : Tunnel :=
  { id := r.id, name := r.name, command := r.command, ssh_server := r.ssh_server,
    local_ip := r.local_ip, local_port := r.local_port,
    remote_ip := r.remote_ip, remote_port := r.remote_port,
    active := r.active, deleted := r.deleted }

/-- `Tunneler::load_tunnels`: `SELECT .. WHERE deleted = 0`. -/
def load_tunnels (db : DB) : List Tunnel :=
  (db.filter (fun r => !r.deleted)).map rowToTunnel

/-- `Tunneler::toggle_tunnel`: load the row for `id` (failure if none),
then stop-and-remove when a handle exists, else start and insert.
A start failure propagates before the insert (the `?` operator). -/
def toggle_tunnel (s : Tunneler) (id : Int) (killResult : Except String Unit)
    (os : SpawnOutcome) : OpResult :=
  match DB.findRow s.db id with
  | none =>
    { state := s, res := .error "Failed to load tunnel: query returned no rows",
      events := [] }
  | some r =>
    match AMap.find? s.active_tunnels id with
    | some existing =>
      let out := stop_tunnel existing killResult
      { state := { s with active_tunnels := AMap.erase s.active_tunnels id },
        res := .ok (), events := out.events }
    | none =>
      let out := start_tunnel (rowToInfo r) os
      match out.res with
      | .error e => { state := s, res := .error e, events := out.events }
      | .ok _ =>
        { state := { s with active_tunnels := AMap.insert s.active_tunnels id out.info },
          res := .ok (), events := out.events }

/-- One scanned entry of the reconciler's first loop. -/
structure ScanEntry where
  id : Int
  info : TunnelInfo
  act : Bool
  events : List Event
deriving DecidableEq, Repr

/-- One iteration of the reconciler's first loop: probe the entry via
`is_active` (which mutates it in place). -/
def scanEntry (probe : Pid → ProbeResult) (e : Int × TunnelInfo) : ScanEntry :=
  let o := is_active e.2 probe
  { id := e.1, info := o.info, act := o.active, events := o.events }

/-- The reconciler's second loop: `for id in inactive { if let Some(t) =
map.remove(&id) { error!("died unexpectedly") } }`. -/
def removePass : AMap → List Int → AMap × List Event
  | m, [] => (m, [])
  | m, id :: rest =>
    match AMap.find? m id with
    | some t =>
      let out := removePass (AMap.erase m id) rest
      (out.1, Event.diag ("Tunnel " ++ t.name ++ " died unexpectedly") :: out.2)
    | none => removePass m rest

/-- Result of one reconciler pass (no error channel in the source). -/
structure TickResult where
  state : Tunneler
  events : List Event
deriving DecidableEq, Repr

/-- `Tunneler::update_tunnel_status`: probe every registered handle,
log `is no longer active` for each dead one, then remove the dead ones,
logging `died unexpectedly` per successful removal. -/
def update_tunnel_status (s : Tunneler) (probe : Pid → ProbeResult) : TickResult :=
  let scanned := s.active_tunnels.map (scanEntry probe)
  let evs1 := (scanned.map (fun x =>
    x.events ++
      (if x.act then [] else
        [Event.diag ("Tunnel " ++ x.info.name ++ " is no longer active")]))).flatten
  let m1 : AMap := scanned.map (fun x => (x.id, x.info))
  let inactive := (scanned.filter (fun x => !x.act)).map (fun x => x.id)
  let out := removePass m1 inactive
  { state := { s with active_tunnels := out.1 }, events := evs1 ++ out.2 }

/-- `str::trim`: drop whitespace from both ends (kernel-reducible
embedding of Rust's trim, used on every form field before storing). -/
def trim (s : String) : String :=
  ⟨((s.data.dropWhile Char.isWhitespace).reverse.dropWhile Char.isWhitespace).reverse⟩

/-- Accumulating decimal parser over the characters of a port text;
`none` on any non-digit, as Rust's integer `parse` rejects them. -/
def digitsToNat : List Char → Nat → Option Nat
  | [], acc => some acc
  | c :: rest, acc =>
    if c.isDigit then digitsToNat rest (acc * 10 + (c.toNat - 48))
    else none

/-- `"...".parse::<u16>().unwrap_or(0)`: an optional leading `+`, then
one or more ASCII digits with a value of at most 65535; any other text
(empty, stray characters, out of range) becomes 0. -/
def parsePort (txt : String) : Nat :=
  match (match txt.data with
         | '+' :: rest => rest
         | l => l) with
  | [] => 0
  | l =>
    match digitsToNat l 0 with
    | some n => if n ≤ 65535 then n else 0
    | none => 0

/-- The stored `command` column text:
`ssh -L <local_port>:<remote_ip>:<remote_port> <ssh_server>`
(built from the untrimmed form fields, as in the source). -/
def commandText (lp : Nat) (remote_ip : String) (rp : Nat) (ssh_server : String) : String :=
  "ssh -L " ++ toString lp ++ ":" ++ remote_ip ++ ":" ++ toString rp ++ " " ++ ssh_server

/-- The `UPDATE tunnels SET name = ?1, command = ?2, .. WHERE id = ?8`
of `save_edited_tunnel` applied to one matching row: every mutable field
is rewritten, `id`, `active` and `deleted` are untouched. -/
def applyEdit (form : NewTunnelForm) (r : Row) : Row :=
  { r with
    name := trim form.name,
    command := commandText (parsePort form.local_port) form.remote_ip
      (parsePort form.remote_port) form.ssh_server,
    ssh_server := trim form.ssh_server,
    local_ip := trim form.local_ip,
    local_port := parsePort form.local_port,
    remote_ip := trim form.remote_ip,
    remote_port := parsePort form.remote_port }

/-- `Tunneler::save_edited_tunnel`: persist the edited fields first; if a
handle exists for the id, stop it, remove it, and `toggle_tunnel` (which
now starts from the updated row). A restart failure is returned with the
database already updated; only the success path reloads the tunnel list
and closes the edit form. -/
def save_edited_tunnel (s : Tunneler) (dbResult killResult : Except String Unit)
    (os : SpawnOutcome) : OpResult :=
  match s.edit_tunnel with
  | none => { state := s, res := .ok (), events := [] }
  | some (id, form) =>
    match dbResult with
    | .error e =>
      { state := s, res := .error ("Failed to update tunnel: " ++ e), events := [] }
    | .ok _ =>
      let s1 := { s with db := DB.update s.db id (applyEdit form) }
      match AMap.find? s1.active_tunnels id with
      | some t =>
        let stopOut := stop_tunnel t killResult
        let s2 := { s1 with active_tunnels := AMap.erase s1.active_tunnels id }
        let tog := toggle_tunnel s2 id killResult os
        match tog.res with
        | .error e =>
          { state := tog.state, res := .error ("Failed to restart tunnel: " ++ e),
            events := [Event.dbWrite] ++ stopOut.events ++ tog.events }
        | .ok _ =>
          let s3 := tog.state
          { state := { s3 with tunnels := load_tunnels s3.db, edit_tunnel := none },
            res := .ok (), events := [Event.dbWrite] ++ stopOut.events ++ tog.events }
      | none =>
        { state := { s1 with tunnels := load_tunnels s1.db, edit_tunnel := none },
          res := .ok (), events := [Event.dbWrite] }

/-- The in-memory part of `delete_tunnel`'s flag update:
`tunnels.iter_mut().find(|t| t.id == id)` marks only the first match. -/
def markDeletedFirst : List Tunnel → Int → List Tunnel
  | [], _ => []
  | t :: ts, id =>
    if t.id == id then { t with deleted := true } :: ts
    else t :: markDeletedFirst ts id

/-- `Tunneler::delete_tunnel`: stop and remove the handle first (if any),
then `UPDATE tunnels SET deleted = TRUE WHERE id = ?` (a write failure is
returned, with the handle already gone), then mark the in-memory row. -/
def delete_tunnel (s : Tunneler) (id : Int) (killResult dbResult : Except String Unit) :
    OpResult :=
  let stopped :=
    match AMap.find? s.active_tunnels id with
    | some t =>
      let out := stop_tunnel t killResult
      ({ s with active_tunnels := AMap.erase s.active_tunnels id }, out.events)
    | none => (s, ([] : List Event))
  match dbResult with
  | .error e =>
    { state := stopped.1, res := .error ("Failed to mark tunnel as deleted: " ++ e),
      events := stopped.2 }
  | .ok _ =>
    let s1 := stopped.1
    { state := { s1 with
        db := DB.update s1.db id (fun r => { r with deleted := true }),
        tunnels := markDeletedFirst s1.tunnels id },
      res := .ok (), events := stopped.2 ++ [Event.dbWrite] }

/-- Result of `add_new_tunnel` (no events are needed for the claims). -/
structure AddResult where
  state : Tunneler
  res : Except String Unit
deriving DecidableEq, Repr

/-- `Tunneler::add_new_tunnel`: INSERT a fresh non-deleted row (the
AUTOINCREMENT id `newId` is supplied by the store) and reload the list. -/
def add_new_tunnel (s : Tunneler) (form : NewTunnelForm) (newId : Int)
    (dbResult : Except String Unit) : AddResult :=
  match dbResult with
  | .error e => { state := s, res := .error e }
  | .ok _ =>
    let row : Row :=
      { id := newId, name := trim form.name,
        command := commandText (parsePort form.local_port) form.remote_ip
          (parsePort form.remote_port) form.ssh_server,
        ssh_server := trim form.ssh_server, local_ip := trim form.local_ip,
        local_port := parsePort form.local_port, remote_ip := trim form.remote_ip,
        remote_port := parsePort form.remote_port, active := false, deleted := false }
    let db2 := s.db ++ [row]
    { state := { s with db := db2, tunnels := load_tunnels db2 }, res := .ok () }

/-- The form prefilled from an in-memory tunnel (`start_edit_tunnel`). -/
def formOf (t : Tunnel) : NewTunnelForm :=
  { name := t.name, ssh_server := t.ssh_server, local_ip := t.local_ip,
    local_port := toString t.local_port, remote_ip := t.remote_ip,
    remote_port := toString t.remote_port }

/-- `Tunneler::start_edit_tunnel`: open the edit form for the first
in-memory tunnel with this id (no `deleted` check, as in the source). -/
def start_edit_tunnel (s : Tunneler) (id : Int) : Tunneler :=
  match List.find? (fun t => t.id == id) s.tunnels with
  | some t => { s with edit_tunnel := some (id, formOf t) }
  | none => s

/-- `Tunneler::new` on a database with contents `db`: empty registry,
tunnel list loaded from the store. -/
def initState (db : DB) : Tunneler :=
  { db := db, tunnels := load_tunnels db, active_tunnels := [], edit_tunnel := none }

/-- One state transition of the application, as driven by `Tunneler::update`:
a reconciler tick, or one user intent applied after rendering. A toggle
intent can only name a tunnel shown in the list, i.e. an in-memory
non-deleted one (`tunnel_data` filters `!t.deleted`); a fresh INSERT id
is never an existing row id (AUTOINCREMENT). -/
inductive Step : Tunneler → Tunneler → Prop where
  | tick (s : Tunneler) (probe : Pid → ProbeResult) :
      Step s (update_tunnel_status s probe).state
  | toggleUI (s : Tunneler) (id : Int) (kr : Except String Unit) (os : SpawnOutcome)
      (h : ∃ t ∈ s.tunnels, t.id = id ∧ t.deleted = false) :
      Step s (toggle_tunnel s id kr os).state
  | deleteUI (s : Tunneler) (id : Int) (kr dr : Except String Unit) :
      Step s (delete_tunnel s id kr dr).state
  | editOpen (s : Tunneler) (id : Int) :
      Step s (start_edit_tunnel s id)
  | editSave (s : Tunneler) (dr kr : Except String Unit) (os : SpawnOutcome) :
      Step s (save_edited_tunnel s dr kr os).state
  | addNew (s : Tunneler) (form : NewTunnelForm) (newId : Int) (dr : Except String Unit)
      (h : ∀ r ∈ s.db, r.id ≠ newId) :
      Step s (add_new_tunnel s form newId dr).state

/-- Reachability from a start state through any sequence of steps. -/
def Reachable (s s' : Tunneler) : Prop :=
  Relation.ReflTransGen Step s s'

/-! ## Basic facts about the registry map -/

theorem AMap.mem_erase {m : AMap} {id : Int} {e : Int × TunnelInfo} :
    e ∈ AMap.erase m id ↔ e ∈ m ∧ e.1 ≠ id := by
  simp [AMap.erase, List.mem_filter]

theorem AMap.find?_erase_self (m : AMap) (id : Int) :
    AMap.find? (AMap.erase m id) id = none := by
  simp only [AMap.find?, Option.map_eq_none', List.find?_eq_none]
  intro e he
  rcases AMap.mem_erase.mp he with ⟨_, hne⟩
  simpa using hne

theorem AMap.keys_erase_subset {m : AMap} {id id' : Int}
    (h : id' ∈ AMap.keys (AMap.erase m id)) : id' ∈ AMap.keys m := by
  simp only [AMap.keys, List.mem_map] at h ⊢
  rcases h with ⟨e, he, hfst⟩
  exact ⟨e, (AMap.mem_erase.mp he).1, hfst⟩

theorem AMap.mem_keys {m : AMap} {id : Int} :
    id ∈ AMap.keys m ↔ ∃ e ∈ m, e.1 = id := by
  simp [AMap.keys, List.mem_map]

theorem AMap.find?_mem {m : AMap} {id : Int} {t : TunnelInfo}
    (h : AMap.find? m id = some t) : (id, t) ∈ m := by
  simp only [AMap.find?, Option.map_eq_some'] at h
  rcases h with ⟨e, he, rfl⟩
  have hm := List.mem_of_find?_eq_some he
  have hp : e.1 = id := by simpa using List.find?_some he
  rcases e with ⟨a, b⟩
  simp only at hp
  subst hp
  exact hm

theorem AMap.find?_some_keys {m : AMap} {id : Int} {t : TunnelInfo}
    (h : AMap.find? m id = some t) : id ∈ AMap.keys m :=
  AMap.mem_keys.mpr ⟨(id, t), AMap.find?_mem h, rfl⟩

theorem AMap.find?_eq_none_iff {m : AMap} {id : Int} :
    AMap.find? m id = none ↔ id ∉ AMap.keys m := by
  constructor
  · intro h hk
    rcases AMap.mem_keys.mp hk with ⟨e, he, hfst⟩
    simp only [AMap.find?, Option.map_eq_none', List.find?_eq_none] at h
    exact absurd (by simpa using hfst) (by simpa using h e he)
  · intro h
    simp only [AMap.find?, Option.map_eq_none', List.find?_eq_none]
    intro e he
    simp only [beq_iff_eq]
    intro hfst
    exact h (AMap.mem_keys.mpr ⟨e, he, hfst⟩)

theorem AMap.keys_erase_of {m : AMap} {a id : Int}
    (h : id ∈ AMap.keys m) (hne : id ≠ a) : id ∈ AMap.keys (AMap.erase m a) := by
  rcases AMap.mem_keys.mp h with ⟨e, he, rfl⟩
  exact AMap.mem_keys.mpr ⟨e, AMap.mem_erase.mpr ⟨he, hne⟩, rfl⟩

/-- Two entries of a map with no duplicate keys that share a key are
the same entry. -/
theorem AMap.nodup_inj {m : AMap} (hnd : (AMap.keys m).Nodup)
    {e e' : Int × TunnelInfo} (he : e ∈ m) (he' : e' ∈ m) (h : e.1 = e'.1) : e = e' :=
  List.inj_on_of_nodup_map hnd he he' h

/-! ## Facts about the reconciler's removal loop -/

theorem removePass_mem {m : AMap} {ids : List Int} {e : Int × TunnelInfo}
    (h : e ∈ (removePass m ids).1) : e ∈ m := by
  induction ids generalizing m with
  | nil => simpa [removePass] using h
  | cons a rest ih =>
    simp only [removePass] at h
    split at h
    · exact (AMap.mem_erase.mp (ih h)).1
    · exact ih h

theorem removePass_keys_subset {m : AMap} {ids : List Int} {id : Int}
    (h : id ∈ AMap.keys (removePass m ids).1) : id ∈ AMap.keys m := by
  rcases AMap.mem_keys.mp h with ⟨e, he, rfl⟩
  exact AMap.mem_keys.mpr ⟨e, removePass_mem he, rfl⟩

theorem removePass_removed {m : AMap} {ids : List Int} {id : Int} (h : id ∈ ids) :
    id ∉ AMap.keys (removePass m ids).1 := by
  induction ids generalizing m with
  | nil => cases h
  | cons a rest ih =>
    simp only [removePass]
    rcases List.mem_cons.mp h with rfl | hmem
    · split
      · intro hk
        rcases AMap.mem_keys.mp (removePass_keys_subset hk) with ⟨e, he, hfst⟩
        exact absurd hfst (AMap.mem_erase.mp he).2
      · rename_i hf
        intro hk
        exact (AMap.find?_eq_none_iff.mp hf) (removePass_keys_subset hk)
    · split
      · exact ih hmem
      · exact ih hmem

theorem removePass_keeps {m : AMap} {ids : List Int} {e : Int × TunnelInfo}
    (he : e ∈ m) (hni : e.1 ∉ ids) : e ∈ (removePass m ids).1 := by
  induction ids generalizing m with
  | nil => simpa [removePass] using he
  | cons a rest ih =>
    have hne : e.1 ≠ a := fun h => hni (by simp [h])
    have hrest : e.1 ∉ rest := fun h => hni (List.mem_cons_of_mem _ h)
    simp only [removePass]
    split
    · exact ih (AMap.mem_erase.mpr ⟨he, hne⟩) hrest
    · exact ih he hrest

/-- Every id of the removal list that is still present is removed with
exactly one `died unexpectedly` diagnostic. -/
theorem removePass_events_length {m : AMap} {ids : List Int}
    (hnd : ids.Nodup) (hsub : ∀ id ∈ ids, id ∈ AMap.keys m) :
    (removePass m ids).2.length = ids.length := by
  induction ids generalizing m with
  | nil => simp [removePass]
  | cons a rest ih =>
    have ha : a ∈ AMap.keys m := hsub a (by simp)
    simp only [removePass]
    cases hf : AMap.find? m a with
    | none => exact absurd ha (by simpa using AMap.find?_eq_none_iff.mp hf)
    | some t =>
      simp only [List.length_cons]
      rw [ih (List.Nodup.of_cons hnd)]
      intro id hid
      have hidm : id ∈ AMap.keys m := hsub id (List.mem_cons_of_mem _ hid)
      have hne : id ≠ a := by
        intro heq
        exact (List.nodup_cons.mp hnd).1 (heq ▸ hid)
      exact AMap.keys_erase_of hidm hne

/-! ## Facts about one reconciler scan entry -/

theorem scanEntry_id (probe : Pid → ProbeResult) (e : Int × TunnelInfo) :
    (scanEntry probe e).id = e.1 := rfl

theorem scanEntry_running {probe : Pid → ProbeResult} {e : Int × TunnelInfo} {pid : Pid}
    (hp : e.2.process = some pid) (hr : probe pid = ProbeResult.running) :
    scanEntry probe e = { id := e.1, info := e.2, act := true, events := [] } := by
  simp [scanEntry, is_active, hp, hr]

theorem scanEntry_dead {probe : Pid → ProbeResult} {e : Int × TunnelInfo} {pid : Pid}
    (hp : e.2.process = some pid) (hr : probe pid ≠ ProbeResult.running) :
    (scanEntry probe e).act = false := by
  cases hpr : probe pid with
  | running => exact absurd hpr hr
  | exited st => simp [scanEntry, is_active, hp, hpr]
  | probeErr msg => simp [scanEntry, is_active, hp, hpr]

theorem scanEntry_exited {probe : Pid → ProbeResult} {e : Int × TunnelInfo} {pid : Pid}
    {st : Int} (hp : e.2.process = some pid) (hr : probe pid = ProbeResult.exited st) :
    scanEntry probe e =
      { id := e.1, info := { e.2 with process := none }, act := false, events := [] } := by
  simp [scanEntry, is_active, hp, hr]

/-- The registry key set is untouched by the scan loop. -/
theorem keys_scan (m : AMap) (probe : Pid → ProbeResult) :
    AMap.keys ((m.map (scanEntry probe)).map (fun x => (x.id, x.info))) = AMap.keys m := by
  simp only [AMap.keys, List.map_map]
  rfl

/-! ## C1, C2, C3: start/stop behavior of the process registry -/

/-- C1: a start request (the start branch of `toggle_tunnel`) that fails —
because the launch itself failed or because the spawned process had
already exited at the first probe — returns a failure and leaves the
registry map unchanged: no handle is inserted. -/
theorem C1_failed_start_inserts_nothing (s : Tunneler) (id : Int)
    (kr : Except String Unit) (os : SpawnOutcome)
    (hno : AMap.find? s.active_tunnels id = none)
    (hfail : (∃ e, os = SpawnOutcome.spawnErr e) ∨
      (∃ pid st, os = SpawnOutcome.spawned pid (ProbeResult.exited st))) :
    (∃ e, (toggle_tunnel s id kr os).res = Except.error e) ∧
    (toggle_tunnel s id kr os).state.active_tunnels = s.active_tunnels := by
  cases hrow : DB.findRow s.db id with
  | none => simp [toggle_tunnel, hrow]
  | some r =>
    rcases hfail with ⟨e, rfl⟩ | ⟨pid, st, rfl⟩ <;>
      simp [toggle_tunnel, hrow, hno, start_tunnel, rowToInfo]

/-- Witness for C1 at a concrete state: empty registry, a spawn failure. -/
theorem C1_failed_start_inserts_nothing_witness :
    AMap.find? (Tunneler.mk
      [{ id := 1, name := "db", command := "c", ssh_server := "db-host",
         local_ip := "127.0.0.1", local_port := 3306, remote_ip := "localhost",
         remote_port := 3306, active := false, deleted := false }] [] [] none).active_tunnels
      1 = none ∧
    ((∃ e, (toggle_tunnel (Tunneler.mk
      [{ id := 1, name := "db", command := "c", ssh_server := "db-host",
         local_ip := "127.0.0.1", local_port := 3306, remote_ip := "localhost",
         remote_port := 3306, active := false, deleted := false }] [] [] none)
        1 (Except.ok ()) (SpawnOutcome.spawnErr "missing binary")).res = Except.error e) ∧
      (toggle_tunnel (Tunneler.mk
      [{ id := 1, name := "db", command := "c", ssh_server := "db-host",
         local_ip := "127.0.0.1", local_port := 3306, remote_ip := "localhost",
         remote_port := 3306, active := false, deleted := false }] [] [] none)
        1 (Except.ok ()) (SpawnOutcome.spawnErr "missing binary")).state.active_tunnels =
      (Tunneler.mk
      [{ id := 1, name := "db", command := "c", ssh_server := "db-host",
         local_ip := "127.0.0.1", local_port := 3306, remote_ip := "localhost",
         remote_port := 3306, active := false, deleted := false }] [] [] none).active_tunnels) :=
  ⟨rfl, C1_failed_start_inserts_nothing _ 1 (Except.ok ()) _ rfl
    (Or.inl ⟨"missing binary", rfl⟩)⟩

/-- C2: `start_tunnel` on a tunnel that already owns a process is a
complete no-op success: no spawn event, the handle unchanged, `Ok`. -/
theorem C2_start_idempotent (t : TunnelInfo) (pid : Pid) (os : SpawnOutcome)
    (h : t.process = some pid) :
    start_tunnel t os = { info := t, res := Except.ok (), events := [] } := by
  simp [start_tunnel, h]

/-- Witness for C2 at a concrete running tunnel. -/
theorem C2_start_idempotent_witness :
    (TunnelInfo.mk 1 "db" "db-host" "127.0.0.1" 3306 "localhost" 3306
      (some 42)).process = some 42 ∧
    start_tunnel (TunnelInfo.mk 1 "db" "db-host" "127.0.0.1" 3306 "localhost" 3306
      (some 42)) (SpawnOutcome.spawned 99 ProbeResult.running) =
      { info := TunnelInfo.mk 1 "db" "db-host" "127.0.0.1" 3306 "localhost" 3306
          (some 42),
        res := Except.ok (), events := [] } :=
  ⟨rfl, C2_start_idempotent _ 42 _ rfl⟩

/-- C3: `stop_tunnel` drops the owned handle unconditionally — also when
the kill request reported an error (`killResult` is arbitrary) — and is a
no-op when no process is owned. Its Rust return type is `()`, so no error
can reach the caller (the model's `StopResult` has no error channel). -/
theorem C3_stop_unconditional (t : TunnelInfo) (kr : Except String Unit) :
    (stop_tunnel t kr).info.process = none ∧
    (t.process = none → stop_tunnel t kr = { info := t, events := [] }) := by
  refine ⟨?_, ?_⟩
  · cases hp : t.process <;> simp [stop_tunnel, hp]
  · intro h
    simp [stop_tunnel, h]

/-- Witness for C3: a failing kill still drops the handle; the stopped
tunnel is a no-op. -/
theorem C3_stop_unconditional_witness :
    ((stop_tunnel (TunnelInfo.mk 1 "db" "db-host" "127.0.0.1" 3306 "localhost" 3306
        (some 42)) (Except.error "ESRCH")).info.process = none ∧
      ((TunnelInfo.mk 1 "db" "db-host" "127.0.0.1" 3306 "localhost" 3306
        (some 42)).process = none →
        stop_tunnel (TunnelInfo.mk 1 "db" "db-host" "127.0.0.1" 3306 "localhost" 3306
          (some 42)) (Except.error "ESRCH") =
        { info := TunnelInfo.mk 1 "db" "db-host" "127.0.0.1" 3306 "localhost" 3306
            (some 42), events := [] })) ∧
    ((stop_tunnel (TunnelInfo.mk 2 "idle" "h" "127.0.0.1" 80 "r" 80 none)
        (Except.error "ESRCH")).info.process = none ∧
      ((TunnelInfo.mk 2 "idle" "h" "127.0.0.1" 80 "r" 80 none).process = none →
        stop_tunnel (TunnelInfo.mk 2 "idle" "h" "127.0.0.1" 80 "r" 80 none)
          (Except.error "ESRCH") =
        { info := TunnelInfo.mk 2 "idle" "h" "127.0.0.1" 80 "r" 80 none,
          events := [] })) :=
  ⟨C3_stop_unconditional _ _, C3_stop_unconditional _ _⟩

/-! ## Facts about the store -/

theorem DB.findRow_update {db : DB} {id : Int} {r : Row} {f : Row → Row}
    (h : DB.findRow db id = some r) (hf : ∀ x, (f x).id = x.id) :
    DB.findRow (DB.update db id f) id = some (f r) := by
  induction db with
  | nil => simp [DB.findRow] at h
  | cons a rest ih =>
    by_cases ha : a.id = id
    · have hp : (a.id == id) = true := by simpa using ha
      have hr : r = a := by
        rw [DB.findRow, List.find?_cons_of_pos _ (by simpa using ha)] at h
        exact (Option.some_inj.mp h).symm
      rw [hr, DB.update, List.map_cons, if_pos hp, DB.findRow,
        List.find?_cons_of_pos _ (by simpa using (hf a).trans ha)]
    · have hp : (a.id == id) = false := by simpa using ha
      rw [DB.findRow, List.find?_cons_of_neg _ (by simpa using ha)] at h
      rw [DB.update, List.map_cons, if_neg (by simpa using ha), DB.findRow,
        List.find?_cons_of_neg _ (by simpa using ha)]
      exact ih h

theorem DB.update_deleted {db : DB} {id : Int} {r : Row}
    (h : r ∈ DB.update db id (fun x => { x with deleted := true })) (hid : r.id = id) :
    r.deleted = true := by
  rcases List.mem_map.mp h with ⟨x, hx, hxr⟩
  by_cases hxi : x.id = id
  · rw [if_pos (by simpa using hxi)] at hxr
    rw [← hxr]
  · rw [if_neg (by simpa using hxi)] at hxr
    exact absurd (hxr ▸ hid) hxi

theorem DB.update_witness_pres {db : DB} {id k : Int} {f : Row → Row}
    (hf : ∀ x, (f x).id = x.id) (hfd : ∀ x, (f x).deleted = x.deleted)
    (h : ∃ r ∈ db, r.id = k ∧ r.deleted = false) :
    ∃ r ∈ DB.update db id f, r.id = k ∧ r.deleted = false := by
  rcases h with ⟨r, hr, hid, hdel⟩
  by_cases hh : r.id = id
  · refine ⟨f r, ?_, by rw [hf r, hid], by rw [hfd r, hdel]⟩
    have he : (if r.id == id then f r else r) = f r := by simp [hh]
    exact he ▸ List.mem_map_of_mem _ hr
  · refine ⟨r, ?_, hid, hdel⟩
    have he : (if r.id == id then f r else r) = r := by simp [hh]
    exact he ▸ List.mem_map_of_mem _ hr

theorem DB.update_witness_ne {db : DB} {id k : Int} {f : Row → Row} (hne : k ≠ id)
    (h : ∃ r ∈ db, r.id = k ∧ r.deleted = false) :
    ∃ r ∈ DB.update db id f, r.id = k ∧ r.deleted = false := by
  rcases h with ⟨r, hr, hid, hdel⟩
  refine ⟨r, ?_, hid, hdel⟩
  have he : (if r.id == id then f r else r) = r := by
    have : r.id ≠ id := hid ▸ hne
    simp [this]
  exact he ▸ List.mem_map_of_mem _ hr

theorem DB.update_map_id (db : DB) (id : Int) (f : Row → Row)
    (hf : ∀ x, (f x).id = x.id) :
    (DB.update db id f).map Row.id = db.map Row.id := by
  rw [DB.update, List.map_map]
  refine List.map_congr_left (fun r hr => ?_)
  by_cases h : r.id = id
  · simp [Function.comp, h, hf]
  · simp [Function.comp, h]

/-! ## Facts about `load_tunnels` and the in-memory list -/

theorem load_tunnels_row {db : DB} {t : Tunnel} (h : t ∈ load_tunnels db) :
    ∃ r ∈ db, r.id = t.id ∧ r.deleted = false := by
  rcases List.mem_map.mp h with ⟨r, hr, rfl⟩
  rcases List.mem_filter.mp hr with ⟨hrdb, hdel⟩
  exact ⟨r, hrdb, rfl, by simpa using hdel⟩

theorem load_tunnels_nodup {db : DB} (h : (db.map Row.id).Nodup) :
    ((load_tunnels db).map Tunnel.id).Nodup := by
  have he : (load_tunnels db).map Tunnel.id =
      (db.filter (fun r => !r.deleted)).map Row.id := by
    rw [load_tunnels, List.map_map]
    rfl
  rw [he]
  exact h.sublist ((List.filter_sublist db).map Row.id)

theorem markDeletedFirst_map_id (l : List Tunnel) (id : Int) :
    (markDeletedFirst l id).map Tunnel.id = l.map Tunnel.id := by
  induction l with
  | nil => rfl
  | cons a rest ih =>
    by_cases h : a.id = id
    · simp [markDeletedFirst, h]
    · simp [markDeletedFirst, h, ih]

theorem markDeletedFirst_mem {l : List Tunnel} {id : Int} {t : Tunnel}
    (hnd : (l.map Tunnel.id).Nodup)
    (h : t ∈ markDeletedFirst l id) (hdel : t.deleted = false) :
    t ∈ l ∧ t.id ≠ id := by
  induction l with
  | nil => cases h
  | cons a rest ih =>
    by_cases ha : a.id = id
    · rw [markDeletedFirst, if_pos (by simpa using ha)] at h
      rcases List.mem_cons.mp h with rfl | hmem
      · cases hdel
      · refine ⟨List.mem_cons_of_mem _ hmem, fun hid => ?_⟩
        have hm : t.id ∈ rest.map Tunnel.id := List.mem_map_of_mem _ hmem
        rw [hid, ← ha] at hm
        exact (List.nodup_cons.mp (by simpa using hnd)).1 hm
    · rw [markDeletedFirst, if_neg (by simpa using ha)] at h
      rcases List.mem_cons.mp h with rfl | hmem
      · exact ⟨List.mem_cons_self _ _, ha⟩
      · have hnd2 : (rest.map Tunnel.id).Nodup :=
          (List.nodup_cons.mp (by simpa using hnd)).2
        rcases ih hnd2 hmem with ⟨h1, h2⟩
        exact ⟨List.mem_cons_of_mem _ h1, h2⟩

theorem AMap.mem_keys_insert {m : AMap} {id k : Int} {v : TunnelInfo}
    (h : k ∈ AMap.keys (AMap.insert m id v)) : k = id ∨ k ∈ AMap.keys m := by
  simp only [AMap.insert, AMap.keys, List.map_cons, List.mem_cons] at h
  rcases h with rfl | h
  · exact Or.inl rfl
  · exact Or.inr (AMap.keys_erase_subset (by simpa [AMap.keys] using h))

/-! ## C4, C9: the reconciler pass -/

/-- C4: after one `update_tunnel_status` pass, every handle whose probe
reported `Running` is still present and unchanged, every handle whose
probe reported an exit or a probe error is absent, and the key set only
shrinks. The hypothesis that the map's keys are duplicate-free is the
`HashMap` representation invariant. -/
theorem C4_reconciler_cleanup (s : Tunneler) (probe : Pid → ProbeResult)
    (hnd : (AMap.keys s.active_tunnels).Nodup) :
    (∀ e ∈ s.active_tunnels, ∀ pid, e.2.process = some pid →
      probe pid = ProbeResult.running →
      e ∈ (update_tunnel_status s probe).state.active_tunnels) ∧
    (∀ e ∈ s.active_tunnels, ∀ pid, e.2.process = some pid →
      probe pid ≠ ProbeResult.running →
      e.1 ∉ AMap.keys (update_tunnel_status s probe).state.active_tunnels) ∧
    (∀ id ∈ AMap.keys (update_tunnel_status s probe).state.active_tunnels,
      id ∈ AMap.keys s.active_tunnels) := by
  refine ⟨?_, ?_, ?_⟩
  · intro e he pid hp hr
    have hscan := scanEntry_running hp hr
    have he1 : e ∈ (s.active_tunnels.map (scanEntry probe)).map (fun x => (x.id, x.info)) := by
      refine List.mem_map.mpr ⟨scanEntry probe e, List.mem_map_of_mem _ he, ?_⟩
      rw [hscan]
    have hni : e.1 ∉
        ((s.active_tunnels.map (scanEntry probe)).filter (fun x => !x.act)).map
          (fun x => x.id) := by
      intro hin
      rcases List.mem_map.mp hin with ⟨x, hxf, hxid⟩
      rcases List.mem_filter.mp hxf with ⟨hxs, hxa⟩
      rcases List.mem_map.mp hxs with ⟨e', he', rfl⟩
      have hkey : e'.1 = e.1 := by rw [← scanEntry_id probe e', hxid]
      have : e' = e := AMap.nodup_inj hnd he' he hkey
      subst this
      rw [hscan] at hxa
      simp at hxa
    exact removePass_keeps he1 hni
  · intro e he pid hp hr
    have hact : (scanEntry probe e).act = false := scanEntry_dead hp hr
    have hin : e.1 ∈
        ((s.active_tunnels.map (scanEntry probe)).filter (fun x => !x.act)).map
          (fun x => x.id) := by
      refine List.mem_map.mpr ⟨scanEntry probe e, ?_, scanEntry_id probe e⟩
      exact List.mem_filter.mpr ⟨List.mem_map_of_mem _ he, by simp [hact]⟩
    exact removePass_removed hin
  · intro id hid
    have := removePass_keys_subset hid
    rwa [keys_scan] at this

/-- Witness for C4: one live handle whose process keeps running. -/
theorem C4_reconciler_cleanup_witness :
    (AMap.keys ([(1, TunnelInfo.mk 1 "db" "h" "127.0.0.1" 3306 "r" 3306 (some 42))] :
      AMap)).Nodup ∧
    ((∀ e ∈ ([(1, TunnelInfo.mk 1 "db" "h" "127.0.0.1" 3306 "r" 3306 (some 42))] :
        AMap), ∀ pid, e.2.process = some pid →
        (fun (_ : Pid) => ProbeResult.running) pid = ProbeResult.running →
        e ∈ (update_tunnel_status
          (Tunneler.mk [] []
            [(1, TunnelInfo.mk 1 "db" "h" "127.0.0.1" 3306 "r" 3306 (some 42))] none)
          (fun _ => ProbeResult.running)).state.active_tunnels) ∧
      (∀ e ∈ ([(1, TunnelInfo.mk 1 "db" "h" "127.0.0.1" 3306 "r" 3306 (some 42))] :
        AMap), ∀ pid, e.2.process = some pid →
        (fun (_ : Pid) => ProbeResult.running) pid ≠ ProbeResult.running →
        e.1 ∉ AMap.keys (update_tunnel_status
          (Tunneler.mk [] []
            [(1, TunnelInfo.mk 1 "db" "h" "127.0.0.1" 3306 "r" 3306 (some 42))] none)
          (fun _ => ProbeResult.running)).state.active_tunnels) ∧
      (∀ id ∈ AMap.keys (update_tunnel_status
          (Tunneler.mk [] []
            [(1, TunnelInfo.mk 1 "db" "h" "127.0.0.1" 3306 "r" 3306 (some 42))] none)
          (fun _ => ProbeResult.running)).state.active_tunnels,
        id ∈ AMap.keys ([(1, TunnelInfo.mk 1 "db" "h" "127.0.0.1" 3306 "r" 3306
          (some 42))] : AMap))) :=
  ⟨by decide, C4_reconciler_cleanup
    (Tunneler.mk [] [] [(1, TunnelInfo.mk 1 "db" "h" "127.0.0.1" 3306 "r" 3306 (some 42))]
      none)
    (fun _ => ProbeResult.running) (by decide)⟩

/-- Claim-statement vocabulary: the probe classified a registered entry
as having exited on its own. -/
def diedExited (probe : Pid → ProbeResult) (e : Int × TunnelInfo) : Bool :=
  match e.2.process with
  | some pid =>
    match probe pid with
    | ProbeResult.exited _ => true
    | _ => false
  | none => false

/-- Claim-statement vocabulary: the liveness probe itself errored for a
registered entry. -/
def diedProbeErr (probe : Pid → ProbeResult) (e : Int × TunnelInfo) : Bool :=
  match e.2.process with
  | some pid =>
    match probe pid with
    | ProbeResult.probeErr _ => true
    | _ => false
  | none => false

theorem scanEntry_probeErr {probe : Pid → ProbeResult} {e : Int × TunnelInfo}
    {pid : Pid} {msg : String} (hp : e.2.process = some pid)
    (hr : probe pid = ProbeResult.probeErr msg) :
    scanEntry probe e =
      { id := e.1, info := { e.2 with process := none }, act := false,
        events := [Event.diag ("Error checking tunnel " ++ e.2.name ++
          " status: " ++ msg)] } := by
  simp [scanEntry, is_active, hp, hr]

/-- Every event emitted while probing one entry is an error diagnostic. -/
theorem scanEntry_events_diag (probe : Pid → ProbeResult) (e : Int × TunnelInfo) :
    ∀ ev ∈ (scanEntry probe e).events, ∃ msg, ev = Event.diag msg := by
  intro ev hev
  cases hp : e.2.process with
  | none => simp [scanEntry, is_active, hp] at hev
  | some pid =>
    cases hr : probe pid with
    | running => simp [scanEntry, is_active, hp, hr] at hev
    | exited st => simp [scanEntry, is_active, hp, hr] at hev
    | probeErr msg =>
      rw [scanEntry_probeErr hp hr] at hev
      simp only [List.mem_singleton] at hev
      exact ⟨_, hev⟩

/-- Every event emitted by the removal loop is an error diagnostic. -/
theorem removePass_events_diag {m : AMap} {ids : List Int} :
    ∀ ev ∈ (removePass m ids).2, ∃ msg, ev = Event.diag msg := by
  induction ids generalizing m with
  | nil =>
    intro ev hev
    simp [removePass] at hev
  | cons a rest ih =>
    intro ev hev
    simp only [removePass] at hev
    split at hev
    · rcases List.mem_cons.mp hev with rfl | hm
      · exact ⟨_, rfl⟩
      · exact ih _ hm
    · exact ih _ hev

/-- The probe loop's diagnostics, counted: one per exited entry (`is no
longer active`), two per probe-error entry (additionally the probe error
itself), none for a running entry. -/
theorem scan_blocks_length (m : AMap) (probe : Pid → ProbeResult)
    (hproc : ∀ e ∈ m, ∃ pid, e.2.process = some pid) :
    ((m.map (scanEntry probe)).map (fun x => x.events ++
      (if x.act then ([] : List Event) else
        [Event.diag ("Tunnel " ++ x.info.name ++ " is no longer active")]))).flatten.length
    = (m.filter (diedExited probe)).length +
      2 * (m.filter (diedProbeErr probe)).length := by
  induction m with
  | nil => rfl
  | cons e rest ih =>
    have hrest := ih (fun x hx => hproc x (List.mem_cons_of_mem _ hx))
    rcases hproc e (List.mem_cons_self _ _) with ⟨pid, hp⟩
    cases hr : probe pid with
    | running =>
      have hde : diedExited probe e = false := by simp [diedExited, hp, hr]
      have hdp : diedProbeErr probe e = false := by simp [diedProbeErr, hp, hr]
      simp [List.filter_cons, scanEntry_running hp hr, hde, hdp] at hrest ⊢
      omega
    | exited st =>
      have hde : diedExited probe e = true := by simp [diedExited, hp, hr]
      have hdp : diedProbeErr probe e = false := by simp [diedProbeErr, hp, hr]
      simp [List.filter_cons, scanEntry_exited hp hr, hde, hdp] at hrest ⊢
      omega
    | probeErr msg =>
      have hde : diedExited probe e = false := by simp [diedExited, hp, hr]
      have hdp : diedProbeErr probe e = true := by simp [diedProbeErr, hp, hr]
      simp [List.filter_cons, scanEntry_probeErr hp hr, hde, hdp] at hrest ⊢
      omega

/-- The removal list, counted: one entry per dead handle. -/
theorem scan_inactive_length (m : AMap) (probe : Pid → ProbeResult)
    (hproc : ∀ e ∈ m, ∃ pid, e.2.process = some pid) :
    ((m.map (scanEntry probe)).filter (fun x => !x.act)).length
    = (m.filter (diedExited probe)).length +
      (m.filter (diedProbeErr probe)).length := by
  induction m with
  | nil => rfl
  | cons e rest ih =>
    have hrest := ih (fun x hx => hproc x (List.mem_cons_of_mem _ hx))
    rcases hproc e (List.mem_cons_self _ _) with ⟨pid, hp⟩
    cases hr : probe pid with
    | running =>
      have hde : diedExited probe e = false := by simp [diedExited, hp, hr]
      have hdp : diedProbeErr probe e = false := by simp [diedProbeErr, hp, hr]
      simp [List.filter_cons, scanEntry_running hp hr, hde, hdp] at hrest ⊢
      omega
    | exited st =>
      have hde : diedExited probe e = true := by simp [diedExited, hp, hr]
      have hdp : diedProbeErr probe e = false := by simp [diedProbeErr, hp, hr]
      simp [List.filter_cons, scanEntry_exited hp hr, hde, hdp] at hrest ⊢
      omega
    | probeErr msg =>
      have hde : diedExited probe e = false := by simp [diedExited, hp, hr]
      have hdp : diedProbeErr probe e = true := by simp [diedProbeErr, hp, hr]
      simp [List.filter_cons, scanEntry_probeErr hp hr, hde, hdp] at hrest ⊢
      omega

/-- C9 fails on the code: a single handle whose process exited produces
TWO error-level diagnostics (`is no longer active` from the probe loop
and `died unexpectedly` from the removal loop), not one. -/
theorem C9_counterexample :
    (update_tunnel_status
      (Tunneler.mk [] [] [(1, TunnelInfo.mk 1 "db" "h" "127.0.0.1" 3306 "r" 3306
        (some 42))] none)
      (fun _ => ProbeResult.exited 255)).state.active_tunnels = [] ∧
    (update_tunnel_status
      (Tunneler.mk [] [] [(1, TunnelInfo.mk 1 "db" "h" "127.0.0.1" 3306 "r" 3306
        (some 42))] none)
      (fun _ => ProbeResult.exited 255)).events =
      [Event.diag "Tunnel db is no longer active",
       Event.diag "Tunnel db died unexpectedly"] := ⟨rfl, rfl⟩

/-- C9 amended, over EVERY reconciler pass (mixed probe outcomes
included): the pass emits nothing but error-level diagnostics; their
total number is exactly two per handle whose process exited plus three
per handle whose probe itself errored (and none for a running handle);
and a probed handle is removed from the map exactly when its probe did
not report Running — so each exit-caused removal comes with exactly two
diagnostics, no removal lacks one, and no diagnostic lacks a dead
handle. Hypotheses: the map's keys are duplicate-free (the `HashMap`
representation invariant) and every registered handle owns a process
(the registry only ever inserts handles via `start_tunnel`'s success
path, which stores the spawned child). -/
theorem C9_two_diagnostics_per_removal (s : Tunneler) (probe : Pid → ProbeResult)
    (hnd : (AMap.keys s.active_tunnels).Nodup)
    (hproc : ∀ e ∈ s.active_tunnels, ∃ pid, e.2.process = some pid) :
    (∀ ev ∈ (update_tunnel_status s probe).events, ∃ msg, ev = Event.diag msg) ∧
    (update_tunnel_status s probe).events.length =
      2 * (s.active_tunnels.filter (diedExited probe)).length +
      3 * (s.active_tunnels.filter (diedProbeErr probe)).length ∧
    (∀ e ∈ s.active_tunnels, ∀ pid, e.2.process = some pid →
      (e.1 ∉ AMap.keys (update_tunnel_status s probe).state.active_tunnels ↔
        probe pid ≠ ProbeResult.running)) := by
  have hndI : ((((s.active_tunnels.map (scanEntry probe)).filter
      (fun x => !x.act)).map (fun x => x.id))).Nodup := by
    have hk : ((s.active_tunnels.map (scanEntry probe)).map (fun x => x.id)) =
        AMap.keys s.active_tunnels := by
      rw [List.map_map]
      rfl
    exact List.Nodup.sublist
      ((List.filter_sublist (s.active_tunnels.map (scanEntry probe))).map
        (fun x => x.id))
      (by rw [hk]; exact hnd)
  have hsubI : ∀ idx ∈ (((s.active_tunnels.map (scanEntry probe)).filter
      (fun x => !x.act)).map (fun x => x.id)),
      idx ∈ AMap.keys ((s.active_tunnels.map (scanEntry probe)).map
        (fun x => (x.id, x.info))) := by
    intro idx hidx
    rcases List.mem_map.mp hidx with ⟨x, hxf, rfl⟩
    exact AMap.mem_keys.mpr
      ⟨(x.id, x.info), List.mem_map_of_mem _ (List.mem_filter.mp hxf).1, rfl⟩
  refine ⟨?_, ?_, ?_⟩
  · intro ev hev
    rcases List.mem_append.mp hev with h1 | h2
    · rcases List.mem_flatten.mp h1 with ⟨block, hb, hevb⟩
      rcases List.mem_map.mp hb with ⟨x, hx, rfl⟩
      rcases List.mem_append.mp hevb with ha | hif
      · rcases List.mem_map.mp hx with ⟨e, he, rfl⟩
        exact scanEntry_events_diag probe e ev ha
      · by_cases hact : x.act
        · simp [hact] at hif
        · simp [hact] at hif
          exact ⟨_, hif⟩
    · exact removePass_events_diag ev h2
  · show ((_ : List Event) ++ (removePass _ _).2).length = _
    rw [List.length_append]
    rw [scan_blocks_length s.active_tunnels probe hproc]
    rw [removePass_events_length hndI hsubI]
    rw [List.length_map, scan_inactive_length s.active_tunnels probe hproc]
    omega
  · intro e he pid hp
    constructor
    · intro habs hr
      apply habs
      have hscan := scanEntry_running hp hr
      have he1 : e ∈ (s.active_tunnels.map (scanEntry probe)).map
          (fun x => (x.id, x.info)) := by
        refine List.mem_map.mpr ⟨scanEntry probe e, List.mem_map_of_mem _ he, ?_⟩
        rw [hscan]
      have hni : e.1 ∉
          ((s.active_tunnels.map (scanEntry probe)).filter (fun x => !x.act)).map
            (fun x => x.id) := by
        intro hin
        rcases List.mem_map.mp hin with ⟨x, hxf, hxid⟩
        rcases List.mem_filter.mp hxf with ⟨hxs, hxa⟩
        rcases List.mem_map.mp hxs with ⟨e2, he2, rfl⟩
        have hkey : e2.1 = e.1 := by rw [← scanEntry_id probe e2, hxid]
        have : e2 = e := AMap.nodup_inj hnd he2 he hkey
        subst this
        rw [hscan] at hxa
        simp at hxa
      exact AMap.mem_keys.mpr ⟨e, removePass_keeps he1 hni, rfl⟩
    · intro hr
      have hact : (scanEntry probe e).act = false := scanEntry_dead hp hr
      have hin : e.1 ∈
          ((s.active_tunnels.map (scanEntry probe)).filter (fun x => !x.act)).map
            (fun x => x.id) := by
        refine List.mem_map.mpr ⟨scanEntry probe e, ?_, scanEntry_id probe e⟩
        exact List.mem_filter.mpr ⟨List.mem_map_of_mem _ he, by simp [hact]⟩
      exact removePass_removed hin

/-- Witness for the amended C9: a genuinely mixed pass — pid 10 still
running, pid 20 exited, pid 30 probe-errored — with 0 + 2 + 3 = 5
diagnostics, and removal of exactly the two dead handles. -/
theorem C9_two_diagnostics_per_removal_witness :
    (AMap.keys ([(1, TunnelInfo.mk 1 "a" "h" "l" 1 "r" 1 (some 10)),
      (2, TunnelInfo.mk 2 "b" "h" "l" 2 "r" 2 (some 20)),
      (3, TunnelInfo.mk 3 "c" "h" "l" 3 "r" 3 (some 30))] : AMap)).Nodup ∧
    ((∀ ev ∈ (update_tunnel_status
        (Tunneler.mk [] [] [(1, TunnelInfo.mk 1 "a" "h" "l" 1 "r" 1 (some 10)),
          (2, TunnelInfo.mk 2 "b" "h" "l" 2 "r" 2 (some 20)),
          (3, TunnelInfo.mk 3 "c" "h" "l" 3 "r" 3 (some 30))] none)
        (fun pid => if pid = 10 then ProbeResult.running
          else if pid = 20 then ProbeResult.exited 255
          else ProbeResult.probeErr "eperm")).events, ∃ msg, ev = Event.diag msg) ∧
      (update_tunnel_status
        (Tunneler.mk [] [] [(1, TunnelInfo.mk 1 "a" "h" "l" 1 "r" 1 (some 10)),
          (2, TunnelInfo.mk 2 "b" "h" "l" 2 "r" 2 (some 20)),
          (3, TunnelInfo.mk 3 "c" "h" "l" 3 "r" 3 (some 30))] none)
        (fun pid => if pid = 10 then ProbeResult.running
          else if pid = 20 then ProbeResult.exited 255
          else ProbeResult.probeErr "eperm")).events.length =
        2 * (([(1, TunnelInfo.mk 1 "a" "h" "l" 1 "r" 1 (some 10)),
          (2, TunnelInfo.mk 2 "b" "h" "l" 2 "r" 2 (some 20)),
          (3, TunnelInfo.mk 3 "c" "h" "l" 3 "r" 3 (some 30))] : AMap).filter
          (diedExited (fun pid => if pid = 10 then ProbeResult.running
            else if pid = 20 then ProbeResult.exited 255
            else ProbeResult.probeErr "eperm"))).length +
        3 * (([(1, TunnelInfo.mk 1 "a" "h" "l" 1 "r" 1 (some 10)),
          (2, TunnelInfo.mk 2 "b" "h" "l" 2 "r" 2 (some 20)),
          (3, TunnelInfo.mk 3 "c" "h" "l" 3 "r" 3 (some 30))] : AMap).filter
          (diedProbeErr (fun pid => if pid = 10 then ProbeResult.running
            else if pid = 20 then ProbeResult.exited 255
            else ProbeResult.probeErr "eperm"))).length ∧
      (∀ e ∈ ([(1, TunnelInfo.mk 1 "a" "h" "l" 1 "r" 1 (some 10)),
          (2, TunnelInfo.mk 2 "b" "h" "l" 2 "r" 2 (some 20)),
          (3, TunnelInfo.mk 3 "c" "h" "l" 3 "r" 3 (some 30))] : AMap),
        ∀ pid, e.2.process = some pid →
        (e.1 ∉ AMap.keys (update_tunnel_status
          (Tunneler.mk [] [] [(1, TunnelInfo.mk 1 "a" "h" "l" 1 "r" 1 (some 10)),
            (2, TunnelInfo.mk 2 "b" "h" "l" 2 "r" 2 (some 20)),
            (3, TunnelInfo.mk 3 "c" "h" "l" 3 "r" 3 (some 30))] none)
          (fun pid => if pid = 10 then ProbeResult.running
            else if pid = 20 then ProbeResult.exited 255
            else ProbeResult.probeErr "eperm")).state.active_tunnels ↔
          (fun pid => if pid = 10 then ProbeResult.running
            else if pid = 20 then ProbeResult.exited 255
            else ProbeResult.probeErr "eperm") pid ≠ ProbeResult.running))) :=
  ⟨by decide, C9_two_diagnostics_per_removal
    (Tunneler.mk [] [] [(1, TunnelInfo.mk 1 "a" "h" "l" 1 "r" 1 (some 10)),
      (2, TunnelInfo.mk 2 "b" "h" "l" 2 "r" 2 (some 20)),
      (3, TunnelInfo.mk 3 "c" "h" "l" 3 "r" 3 (some 30))] none)
    (fun pid => if pid = 10 then ProbeResult.running
      else if pid = 20 then ProbeResult.exited 255
      else ProbeResult.probeErr "eperm") (by decide)
    (fun e he => by
      rcases List.mem_cons.mp he with rfl | he2
      · exact ⟨10, rfl⟩
      rcases List.mem_cons.mp he2 with rfl | he3
      · exact ⟨20, rfl⟩
      rcases List.mem_cons.mp he3 with rfl | he4
      · exact ⟨30, rfl⟩
      cases he4)⟩

/-! ## C7: the update operation versus `NotFound` -/

/-- C7 fails on the code: `save_edited_tunnel`'s UPDATE statement has no
`deleted = 0` filter and a zero-row UPDATE is a success, so (a) editing an
identifier with no row at all reports success instead of a `NotFound`
failure, and (b) a soft-deleted row's mutable fields ARE rewritten. -/
theorem C7_counterexample :
    (save_edited_tunnel
      (Tunneler.mk [] [] []
        (some (5, NewTunnelForm.mk "n" "srv" "127.0.0.1" "1" "10.0.0.1" "2")))
      (Except.ok ()) (Except.ok ()) (SpawnOutcome.spawnErr "x")).res = Except.ok () ∧
    (save_edited_tunnel
      (Tunneler.mk [Row.mk 5 "old" "c" "s" "l" 1 "r" 2 false true] [] []
        (some (5, NewTunnelForm.mk "n" "srv" "127.0.0.1" "1" "10.0.0.1" "2")))
      (Except.ok ()) (Except.ok ()) (SpawnOutcome.spawnErr "x")).res = Except.ok () ∧
    (save_edited_tunnel
      (Tunneler.mk [Row.mk 5 "old" "c" "s" "l" 1 "r" 2 false true] [] []
        (some (5, NewTunnelForm.mk "n" "srv" "127.0.0.1" "1" "10.0.0.1" "2")))
      (Except.ok ()) (Except.ok ()) (SpawnOutcome.spawnErr "x")).state.db =
      [Row.mk 5 "n" "ssh -L 1:10.0.0.1:2 srv" "srv" "127.0.0.1" 1 "10.0.0.1" 2
        false true] :=
  ⟨rfl, rfl, by decide⟩

/-- C7 amended: when the SQL write itself succeeds, the update operation
reports success whether or not any matching non-deleted row exists, and it
rewrites the mutable fields of every row with the edited identifier —
soft-deleted rows included (their deleted flag stays set, preserved by
`applyEdit`). Stated for an inactive identifier, so no restart happens. -/
theorem C7_update_succeeds_regardless (s : Tunneler) (id : Int) (form : NewTunnelForm)
    (kr : Except String Unit) (os : SpawnOutcome)
    (hedit : s.edit_tunnel = some (id, form))
    (hno : AMap.find? s.active_tunnels id = none) :
    (save_edited_tunnel s (Except.ok ()) kr os).res = Except.ok () ∧
    (save_edited_tunnel s (Except.ok ()) kr os).state.db =
      DB.update s.db id (applyEdit form) := by
  simp [save_edited_tunnel, hedit, hno]

/-- Witness for the amended C7: an edit of an identifier with no row. -/
theorem C7_update_succeeds_regardless_witness :
    (Tunneler.mk [] [] []
        (some (5, NewTunnelForm.mk "n" "srv" "127.0.0.1" "1" "10.0.0.1" "2"))).edit_tunnel =
      some (5, NewTunnelForm.mk "n" "srv" "127.0.0.1" "1" "10.0.0.1" "2") ∧
    ((save_edited_tunnel
        (Tunneler.mk [] [] []
          (some (5, NewTunnelForm.mk "n" "srv" "127.0.0.1" "1" "10.0.0.1" "2")))
        (Except.ok ()) (Except.ok ()) (SpawnOutcome.spawnErr "x")).res = Except.ok () ∧
      (save_edited_tunnel
        (Tunneler.mk [] [] []
          (some (5, NewTunnelForm.mk "n" "srv" "127.0.0.1" "1" "10.0.0.1" "2")))
        (Except.ok ()) (Except.ok ()) (SpawnOutcome.spawnErr "x")).state.db =
      DB.update [] 5 (applyEdit (NewTunnelForm.mk "n" "srv" "127.0.0.1" "1" "10.0.0.1"
        "2"))) :=
  ⟨rfl, C7_update_succeeds_regardless _ 5 _ (Except.ok ()) (SpawnOutcome.spawnErr "x")
    rfl rfl⟩

/-! ## C8: deleting a running tunnel -/

/-- C8: deleting a definition whose tunnel is running kills the owned
process and removes the handle BEFORE the soft-delete write (the kill
event precedes the dbWrite event); afterwards the identifier has no
handle, every row with that id has its deleted flag set, and the call
succeeds. `kr` is arbitrary: a failed kill changes nothing but a logged
diagnostic. -/
theorem C8_delete_running (s : Tunneler) (id : Int) (t : TunnelInfo) (pid : Pid)
    (kr : Except String Unit)
    (hact : AMap.find? s.active_tunnels id = some t)
    (hpid : t.process = some pid) :
    AMap.find? (delete_tunnel s id kr (Except.ok ())).state.active_tunnels id = none ∧
    (∀ r ∈ (delete_tunnel s id kr (Except.ok ())).state.db, r.id = id →
      r.deleted = true) ∧
    (delete_tunnel s id kr (Except.ok ())).res = Except.ok () ∧
    (∃ mid, (delete_tunnel s id kr (Except.ok ())).events =
      Event.kill pid :: mid ++ [Event.dbWrite]) := by
  refine ⟨?_, ?_, ?_, ?_⟩
  · show AMap.find? _ id = none
    simp only [delete_tunnel, hact]
    exact AMap.find?_erase_self s.active_tunnels id
  · intro r hr hid
    simp only [delete_tunnel, hact] at hr
    exact DB.update_deleted hr hid
  · simp [delete_tunnel, hact]
  · cases kr with
    | ok u =>
      refine ⟨[], ?_⟩
      simp [delete_tunnel, hact, stop_tunnel, hpid]
    | error e =>
      refine ⟨[Event.diag ("Failed to stop tunnel " ++ t.name ++ ": " ++ e)], ?_⟩
      simp [delete_tunnel, hact, stop_tunnel, hpid]

/-- Witness for C8 at a concrete running tunnel. -/
theorem C8_delete_running_witness :
    AMap.find? (Tunneler.mk
      [Row.mk 1 "db" "c" "h" "127.0.0.1" 3306 "r" 3306 false false]
      [Tunnel.mk 1 "db" "c" "h" "127.0.0.1" 3306 "r" 3306 false false]
      [(1, TunnelInfo.mk 1 "db" "h" "127.0.0.1" 3306 "r" 3306 (some 42))]
      none).active_tunnels 1 =
      some (TunnelInfo.mk 1 "db" "h" "127.0.0.1" 3306 "r" 3306 (some 42)) ∧
    (AMap.find? (delete_tunnel (Tunneler.mk
        [Row.mk 1 "db" "c" "h" "127.0.0.1" 3306 "r" 3306 false false]
        [Tunnel.mk 1 "db" "c" "h" "127.0.0.1" 3306 "r" 3306 false false]
        [(1, TunnelInfo.mk 1 "db" "h" "127.0.0.1" 3306 "r" 3306 (some 42))]
        none) 1 (Except.ok ()) (Except.ok ())).state.active_tunnels 1 = none ∧
      (∀ r ∈ (delete_tunnel (Tunneler.mk
        [Row.mk 1 "db" "c" "h" "127.0.0.1" 3306 "r" 3306 false false]
        [Tunnel.mk 1 "db" "c" "h" "127.0.0.1" 3306 "r" 3306 false false]
        [(1, TunnelInfo.mk 1 "db" "h" "127.0.0.1" 3306 "r" 3306 (some 42))]
        none) 1 (Except.ok ()) (Except.ok ())).state.db, r.id = 1 →
        r.deleted = true) ∧
      (delete_tunnel (Tunneler.mk
        [Row.mk 1 "db" "c" "h" "127.0.0.1" 3306 "r" 3306 false false]
        [Tunnel.mk 1 "db" "c" "h" "127.0.0.1" 3306 "r" 3306 false false]
        [(1, TunnelInfo.mk 1 "db" "h" "127.0.0.1" 3306 "r" 3306 (some 42))]
        none) 1 (Except.ok ()) (Except.ok ())).res = Except.ok () ∧
      (∃ mid, (delete_tunnel (Tunneler.mk
        [Row.mk 1 "db" "c" "h" "127.0.0.1" 3306 "r" 3306 false false]
        [Tunnel.mk 1 "db" "c" "h" "127.0.0.1" 3306 "r" 3306 false false]
        [(1, TunnelInfo.mk 1 "db" "h" "127.0.0.1" 3306 "r" 3306 (some 42))]
        none) 1 (Except.ok ()) (Except.ok ())).events =
        Event.kill 42 :: mid ++ [Event.dbWrite])) :=
  ⟨rfl, C8_delete_running _ 1 _ 42 (Except.ok ()) rfl rfl⟩

/-! ## C5: editing a definition while its tunnel is active -/

/-- C5: saving an edit of an active tunnel (one with a handle owning a
live process) persists the new parameters FIRST (the dbWrite event comes
first, and the stored table equals the parameter rewrite no matter how
the restart goes — no rollback), then kills the old process, then spawns
a new one whose arguments come from the UPDATED row; and whenever the
call returns a failure, no handle for the identifier remains in the map. -/
theorem C5_edit_while_active (s : Tunneler) (id : Int) (form : NewTunnelForm) (r : Row)
    (t : TunnelInfo) (pid : Pid) (os : SpawnOutcome)
    (hedit : s.edit_tunnel = some (id, form))
    (hact : AMap.find? s.active_tunnels id = some t)
    (hpid : t.process = some pid)
    (hrow : DB.findRow s.db id = some r) :
    (save_edited_tunnel s (Except.ok ()) (Except.ok ()) os).state.db =
      DB.update s.db id (applyEdit form) ∧
    (save_edited_tunnel s (Except.ok ()) (Except.ok ()) os).events =
      [Event.dbWrite, Event.kill pid,
        Event.spawn (sshArgs (rowToInfo (applyEdit form r)))] ∧
    ((∃ e, (save_edited_tunnel s (Except.ok ()) (Except.ok ()) os).res =
        Except.error e) →
      AMap.find? (save_edited_tunnel s (Except.ok ())
        (Except.ok ()) os).state.active_tunnels id = none) := by
  have hrow2 : DB.findRow (DB.update s.db id (applyEdit form)) id =
      some (applyEdit form r) := DB.findRow_update hrow (fun x => rfl)
  have hnone := AMap.find?_erase_self s.active_tunnels id
  rcases os with e | ⟨pid2, probe2⟩
  · simp [save_edited_tunnel, hedit, hact, stop_tunnel, hpid, toggle_tunnel, hrow2,
      hnone, start_tunnel, rowToInfo]
  · rcases probe2 with _ | st | e2 <;>
      simp [save_edited_tunnel, hedit, hact, stop_tunnel, hpid, toggle_tunnel, hrow2,
        hnone, start_tunnel, rowToInfo]

/-- Witness for C5: an active tunnel edited from remote_port 3306 to
3307 whose relaunch fails; the store keeps 3307 and the map is empty. -/
theorem C5_edit_while_active_witness :
    (Tunneler.mk [Row.mk 1 "db" "c" "h" "127.0.0.1" 3306 "localhost" 3306 false false]
      [] [(1, TunnelInfo.mk 1 "db" "h" "127.0.0.1" 3306 "localhost" 3306 (some 42))]
      (some (1, NewTunnelForm.mk "db" "h" "127.0.0.1" "3306" "localhost"
        "3307"))).edit_tunnel =
      some (1, NewTunnelForm.mk "db" "h" "127.0.0.1" "3306" "localhost" "3307") ∧
    ((save_edited_tunnel (Tunneler.mk
        [Row.mk 1 "db" "c" "h" "127.0.0.1" 3306 "localhost" 3306 false false]
        [] [(1, TunnelInfo.mk 1 "db" "h" "127.0.0.1" 3306 "localhost" 3306 (some 42))]
        (some (1, NewTunnelForm.mk "db" "h" "127.0.0.1" "3306" "localhost" "3307")))
        (Except.ok ()) (Except.ok ()) (SpawnOutcome.spawnErr "boom")).state.db =
      DB.update [Row.mk 1 "db" "c" "h" "127.0.0.1" 3306 "localhost" 3306 false false]
        1 (applyEdit (NewTunnelForm.mk "db" "h" "127.0.0.1" "3306" "localhost"
          "3307")) ∧
      (save_edited_tunnel (Tunneler.mk
        [Row.mk 1 "db" "c" "h" "127.0.0.1" 3306 "localhost" 3306 false false]
        [] [(1, TunnelInfo.mk 1 "db" "h" "127.0.0.1" 3306 "localhost" 3306 (some 42))]
        (some (1, NewTunnelForm.mk "db" "h" "127.0.0.1" "3306" "localhost" "3307")))
        (Except.ok ()) (Except.ok ()) (SpawnOutcome.spawnErr "boom")).events =
      [Event.dbWrite, Event.kill 42,
        Event.spawn (sshArgs (rowToInfo (applyEdit
          (NewTunnelForm.mk "db" "h" "127.0.0.1" "3306" "localhost" "3307")
          (Row.mk 1 "db" "c" "h" "127.0.0.1" 3306 "localhost" 3306 false false))))] ∧
      ((∃ e, (save_edited_tunnel (Tunneler.mk
        [Row.mk 1 "db" "c" "h" "127.0.0.1" 3306 "localhost" 3306 false false]
        [] [(1, TunnelInfo.mk 1 "db" "h" "127.0.0.1" 3306 "localhost" 3306 (some 42))]
        (some (1, NewTunnelForm.mk "db" "h" "127.0.0.1" "3306" "localhost" "3307")))
        (Except.ok ()) (Except.ok ()) (SpawnOutcome.spawnErr "boom")).res =
        Except.error e) →
      AMap.find? (save_edited_tunnel (Tunneler.mk
        [Row.mk 1 "db" "c" "h" "127.0.0.1" 3306 "localhost" 3306 false false]
        [] [(1, TunnelInfo.mk 1 "db" "h" "127.0.0.1" 3306 "localhost" 3306 (some 42))]
        (some (1, NewTunnelForm.mk "db" "h" "127.0.0.1" "3306" "localhost" "3307")))
        (Except.ok ()) (Except.ok ())
        (SpawnOutcome.spawnErr "boom")).state.active_tunnels 1 = none)) :=
  ⟨rfl, C5_edit_while_active _ 1 _
    (Row.mk 1 "db" "c" "h" "127.0.0.1" 3306 "localhost" 3306 false false)
    (TunnelInfo.mk 1 "db" "h" "127.0.0.1" 3306 "localhost" 3306 (some 42)) 42
    (SpawnOutcome.spawnErr "boom") rfl rfl rfl rfl⟩

/-! ## C10: toggle is driven by the store, not the caller -/

/-- C10: toggling an identifier with no row in the `tunnels` table fails
without spawning anything (no events at all) and leaves the whole state
unchanged; when a row exists, any spawned process's arguments are built
from that row as read at toggle time — the caller supplies only the id. -/
theorem C10_toggle_uses_store (s : Tunneler) (id : Int) (kr : Except String Unit)
    (os : SpawnOutcome) :
    (DB.findRow s.db id = none →
      (toggle_tunnel s id kr os).state = s ∧
      (∃ e, (toggle_tunnel s id kr os).res = Except.error e) ∧
      (toggle_tunnel s id kr os).events = []) ∧
    (∀ r, DB.findRow s.db id = some r →
      ∀ args, Event.spawn args ∈ (toggle_tunnel s id kr os).events →
        args = sshArgs (rowToInfo r)) := by
  constructor
  · intro h
    simp [toggle_tunnel, h]
  · intro r hrow args hmem
    cases hact : AMap.find? s.active_tunnels id with
    | some t =>
      exfalso
      simp only [toggle_tunnel, hrow, hact] at hmem
      cases hp : t.process with
      | none => simp [stop_tunnel, hp] at hmem
      | some pid =>
        cases kr with
        | ok u => simp [stop_tunnel, hp] at hmem
        | error e => simp [stop_tunnel, hp] at hmem
    | none =>
      simp only [toggle_tunnel, hrow, hact] at hmem
      cases os with
      | spawnErr e =>
        simp [start_tunnel, rowToInfo] at hmem
        exact hmem
      | spawned pid probe =>
        cases probe <;>
          · simp [start_tunnel, rowToInfo] at hmem
            exact hmem

/-- Witness for C10: no-row toggle at id 7 on a one-row store, and the
spawn arguments of a successful start at id 1. -/
theorem C10_toggle_uses_store_witness :
    ((toggle_tunnel (Tunneler.mk
        [Row.mk 1 "db" "c" "h" "127.0.0.1" 3306 "r" 3306 false false] [] [] none)
        7 (Except.ok ()) (SpawnOutcome.spawned 42 ProbeResult.running)).state =
      Tunneler.mk
        [Row.mk 1 "db" "c" "h" "127.0.0.1" 3306 "r" 3306 false false] [] [] none ∧
      (∃ e, (toggle_tunnel (Tunneler.mk
        [Row.mk 1 "db" "c" "h" "127.0.0.1" 3306 "r" 3306 false false] [] [] none)
        7 (Except.ok ()) (SpawnOutcome.spawned 42 ProbeResult.running)).res =
        Except.error e) ∧
      (toggle_tunnel (Tunneler.mk
        [Row.mk 1 "db" "c" "h" "127.0.0.1" 3306 "r" 3306 false false] [] [] none)
        7 (Except.ok ()) (SpawnOutcome.spawned 42 ProbeResult.running)).events = []) ∧
    (∀ args, Event.spawn args ∈ (toggle_tunnel (Tunneler.mk
        [Row.mk 1 "db" "c" "h" "127.0.0.1" 3306 "r" 3306 false false] [] [] none)
        1 (Except.ok ()) (SpawnOutcome.spawned 42 ProbeResult.running)).events →
      args = sshArgs (rowToInfo
        (Row.mk 1 "db" "c" "h" "127.0.0.1" 3306 "r" 3306 false false))) :=
  ⟨(C10_toggle_uses_store (Tunneler.mk
      [Row.mk 1 "db" "c" "h" "127.0.0.1" 3306 "r" 3306 false false] [] [] none)
      7 (Except.ok ()) (SpawnOutcome.spawned 42 ProbeResult.running)).1 rfl,
   (C10_toggle_uses_store (Tunneler.mk
      [Row.mk 1 "db" "c" "h" "127.0.0.1" 3306 "r" 3306 false false] [] [] none)
      1 (Except.ok ()) (SpawnOutcome.spawned 42 ProbeResult.running)).2
      (Row.mk 1 "db" "c" "h" "127.0.0.1" 3306 "r" 3306 false false) rfl⟩

/-! ## C6: the registry's keys always reference live definitions -/

/-- The inductive invariant behind C6: every registry key has a
non-deleted row, every non-deleted in-memory tunnel has a non-deleted
row, row ids are duplicate-free (PRIMARY KEY), and so are the in-memory
ids (loaded from distinct rows). -/
def Inv (s : Tunneler) : Prop :=
  (∀ id ∈ AMap.keys s.active_tunnels, ∃ r ∈ s.db, r.id = id ∧ r.deleted = false) ∧
  (∀ t ∈ s.tunnels, t.deleted = false →
    ∃ r ∈ s.db, r.id = t.id ∧ r.deleted = false) ∧
  (s.db.map Row.id).Nodup ∧
  (s.tunnels.map Tunnel.id).Nodup

theorem Inv_init (db : DB) (hnd : (db.map Row.id).Nodup) : Inv (initState db) := by
  refine ⟨?_, ?_, hnd, load_tunnels_nodup hnd⟩
  · intro id hid
    simp [initState, AMap.keys] at hid
  · intro t ht _
    exact load_tunnels_row ht

theorem Inv_tick (s : Tunneler) (probe : Pid → ProbeResult) (h : Inv s) :
    Inv (update_tunnel_status s probe).state := by
  obtain ⟨h1, h2, h3, h4⟩ := h
  refine ⟨?_, h2, h3, h4⟩
  intro id hid
  refine h1 id ?_
  have hsub : id ∈ AMap.keys
      ((s.active_tunnels.map (scanEntry probe)).map (fun x => (x.id, x.info))) :=
    removePass_keys_subset hid
  rwa [keys_scan] at hsub

theorem Inv_toggle (s : Tunneler) (id : Int) (kr : Except String Unit)
    (os : SpawnOutcome)
    (hdisp : ∃ t ∈ s.tunnels, t.id = id ∧ t.deleted = false)
    (h : Inv s) : Inv (toggle_tunnel s id kr os).state := by
  obtain ⟨h1, h2, h3, h4⟩ := h
  cases hrow : DB.findRow s.db id with
  | none =>
    simp only [toggle_tunnel, hrow]
    exact ⟨h1, h2, h3, h4⟩
  | some r =>
    cases hact : AMap.find? s.active_tunnels id with
    | some ex =>
      simp only [toggle_tunnel, hrow, hact]
      refine ⟨?_, h2, h3, h4⟩
      intro k hk
      exact h1 k (AMap.keys_erase_subset hk)
    | none =>
      simp only [toggle_tunnel, hrow, hact]
      cases hres : (start_tunnel (rowToInfo r) os).res with
      | error e =>
        simp only [hres]
        exact ⟨h1, h2, h3, h4⟩
      | ok u =>
        simp only [hres]
        refine ⟨?_, h2, h3, h4⟩
        intro k hk
        rcases AMap.mem_keys_insert hk with rfl | hk2
        · rcases hdisp with ⟨t, ht, htid, htdel⟩
          rcases h2 t ht htdel with ⟨r2, hr2, hrid, hrdel⟩
          exact ⟨r2, hr2, hrid.trans htid, hrdel⟩
        · exact h1 k hk2

theorem Inv_delete (s : Tunneler) (id : Int) (kr dr : Except String Unit)
    (h : Inv s) : Inv (delete_tunnel s id kr dr).state := by
  obtain ⟨h1, h2, h3, h4⟩ := h
  have hpres : ∀ k, k ∈ AMap.keys (delete_tunnel s id kr dr).state.active_tunnels →
      k ∈ AMap.keys s.active_tunnels ∧ k ≠ id := by
    intro k hk
    cases hact : AMap.find? s.active_tunnels id with
    | some t =>
      simp only [delete_tunnel, hact] at hk
      cases dr with
      | error e =>
        simp only at hk
        rcases AMap.mem_keys.mp hk with ⟨e2, he2, rfl⟩
        exact ⟨AMap.keys_erase_subset hk, (AMap.mem_erase.mp he2).2⟩
      | ok u =>
        simp only at hk
        rcases AMap.mem_keys.mp hk with ⟨e2, he2, rfl⟩
        exact ⟨AMap.keys_erase_subset hk, (AMap.mem_erase.mp he2).2⟩
    | none =>
      simp only [delete_tunnel, hact] at hk
      have hkm : k ∈ AMap.keys s.active_tunnels := by
        cases dr with
        | error e => simpa using hk
        | ok u => simpa using hk
      refine ⟨hkm, fun hkid => ?_⟩
      exact (AMap.find?_eq_none_iff.mp hact) (hkid ▸ hkm)
  cases hact : AMap.find? s.active_tunnels id with
  | some t =>
    cases dr with
    | error e =>
      simp only [delete_tunnel, hact]
      refine ⟨?_, h2, h3, h4⟩
      intro k hk
      refine h1 k (AMap.keys_erase_subset hk)
    | ok u =>
      simp only [delete_tunnel, hact]
      refine ⟨?_, ?_, ?_, ?_⟩
      · intro k hk
        have hp := hpres k (by simpa [delete_tunnel, hact] using hk)
        exact DB.update_witness_ne hp.2 (h1 k hp.1)
      · intro t2 ht2 hdel2
        rcases markDeletedFirst_mem h4 ht2 hdel2 with ⟨hmem, hne⟩
        exact DB.update_witness_ne hne (h2 t2 hmem hdel2)
      · show ((DB.update s.db id (fun r => { r with deleted := true })).map Row.id).Nodup
        rw [DB.update_map_id s.db id (fun r => { r with deleted := true })
          (fun x => rfl)]
        exact h3
      · show ((markDeletedFirst s.tunnels id).map Tunnel.id).Nodup
        rw [markDeletedFirst_map_id]
        exact h4
  | none =>
    cases dr with
    | error e =>
      simp only [delete_tunnel, hact]
      exact ⟨h1, h2, h3, h4⟩
    | ok u =>
      simp only [delete_tunnel, hact]
      refine ⟨?_, ?_, ?_, ?_⟩
      · intro k hk
        have hp := hpres k (by simpa [delete_tunnel, hact] using hk)
        exact DB.update_witness_ne hp.2 (h1 k hp.1)
      · intro t2 ht2 hdel2
        rcases markDeletedFirst_mem h4 ht2 hdel2 with ⟨hmem, hne⟩
        exact DB.update_witness_ne hne (h2 t2 hmem hdel2)
      · show ((DB.update s.db id (fun r => { r with deleted := true })).map Row.id).Nodup
        rw [DB.update_map_id s.db id (fun r => { r with deleted := true })
          (fun x => rfl)]
        exact h3
      · show ((markDeletedFirst s.tunnels id).map Tunnel.id).Nodup
        rw [markDeletedFirst_map_id]
        exact h4

theorem Inv_editOpen (s : Tunneler) (id : Int) (h : Inv s) :
    Inv (start_edit_tunnel s id) := by
  obtain ⟨h1, h2, h3, h4⟩ := h
  cases hf : List.find? (fun t => t.id == id) s.tunnels with
  | none =>
    simp only [start_edit_tunnel, hf]
    exact ⟨h1, h2, h3, h4⟩
  | some t =>
    simp only [start_edit_tunnel, hf]
    exact ⟨h1, h2, h3, h4⟩

theorem Inv_editSave (s : Tunneler) (dr kr : Except String Unit) (os : SpawnOutcome)
    (h : Inv s) : Inv (save_edited_tunnel s dr kr os).state := by
  obtain ⟨h1, h2, h3, h4⟩ := h
  cases hedit : s.edit_tunnel with
  | none =>
    simp only [save_edited_tunnel, hedit]
    exact ⟨h1, h2, h3, h4⟩
  | some p =>
    obtain ⟨id, form⟩ := p
    cases dr with
    | error e =>
      simp only [save_edited_tunnel, hedit]
      exact ⟨h1, h2, h3, h4⟩
    | ok u =>
      have hid : ∀ x, (applyEdit form x).id = x.id := fun x => rfl
      have hdel : ∀ x, (applyEdit form x).deleted = x.deleted := fun x => rfl
      have hnd2 : ((DB.update s.db id (applyEdit form)).map Row.id).Nodup := by
        rw [DB.update_map_id _ _ _ hid]
        exact h3
      cases hact : AMap.find? s.active_tunnels id with
      | none =>
        simp only [save_edited_tunnel, hedit, hact]
        refine ⟨?_, ?_, hnd2, load_tunnels_nodup hnd2⟩
        · intro k hk
          exact DB.update_witness_pres hid hdel (h1 k hk)
        · intro t ht _
          exact load_tunnels_row ht
      | some t =>
        simp only [save_edited_tunnel, hedit, hact]
        cases hrow : DB.findRow (DB.update s.db id (applyEdit form)) id with
        | none =>
          simp only [toggle_tunnel, hrow]
          refine ⟨?_, ?_, hnd2, h4⟩
          · intro k hk
            exact DB.update_witness_pres hid hdel (h1 k (AMap.keys_erase_subset hk))
          · intro t2 ht2 hdel2
            exact DB.update_witness_pres hid hdel (h2 t2 ht2 hdel2)
        | some r2 =>
          simp only [toggle_tunnel, hrow, AMap.find?_erase_self]
          cases hres : (start_tunnel (rowToInfo r2) os).res with
          | error e =>
            simp only [hres]
            refine ⟨?_, ?_, hnd2, h4⟩
            · intro k hk
              exact DB.update_witness_pres hid hdel (h1 k (AMap.keys_erase_subset hk))
            · intro t2 ht2 hdel2
              exact DB.update_witness_pres hid hdel (h2 t2 ht2 hdel2)
          | ok u2 =>
            simp only [hres]
            refine ⟨?_, ?_, hnd2, load_tunnels_nodup hnd2⟩
            · intro k hk
              rcases AMap.mem_keys_insert hk with rfl | hk2
              · exact DB.update_witness_pres hid hdel
                  (h1 k (AMap.find?_some_keys hact))
              · exact DB.update_witness_pres hid hdel
                  (h1 k (AMap.keys_erase_subset hk2))
            · intro t2 ht2 _
              exact load_tunnels_row ht2

theorem nodup_append_row {db : DB} {row : Row} (h : (db.map Row.id).Nodup)
    (hfresh : ∀ r ∈ db, r.id ≠ row.id) :
    ((db ++ [row]).map Row.id).Nodup := by
  rw [List.map_append]
  refine List.Nodup.append h (by simp) ?_
  intro a ha hb
  simp only [List.map_cons, List.map_nil, List.mem_singleton] at hb
  rcases List.mem_map.mp ha with ⟨r, hr, rfl⟩
  exact hfresh r hr hb

theorem Inv_addNew (s : Tunneler) (form : NewTunnelForm) (newId : Int)
    (dr : Except String Unit) (hfresh : ∀ r ∈ s.db, r.id ≠ newId)
    (h : Inv s) : Inv (add_new_tunnel s form newId dr).state := by
  obtain ⟨h1, h2, h3, h4⟩ := h
  cases dr with
  | error e =>
    simp only [add_new_tunnel]
    exact ⟨h1, h2, h3, h4⟩
  | ok u =>
    simp only [add_new_tunnel]
    refine ⟨?_, ?_, nodup_append_row h3 (fun r hr => hfresh r hr),
      load_tunnels_nodup (nodup_append_row h3 (fun r hr => hfresh r hr))⟩
    · intro k hk
      rcases h1 k hk with ⟨r, hr, hrid, hrdel⟩
      exact ⟨r, List.mem_append_left _ hr, hrid, hrdel⟩
    · intro t ht _
      exact load_tunnels_row ht

theorem Inv_step {s s2 : Tunneler} (hst : Step s s2) (h : Inv s) : Inv s2 := by
  cases hst with
  | tick probe => exact Inv_tick s probe h
  | toggleUI id kr os hdisp => exact Inv_toggle s id kr os hdisp h
  | deleteUI id kr dr => exact Inv_delete s id kr dr h
  | editOpen id => exact Inv_editOpen s id h
  | editSave dr kr os => exact Inv_editSave s dr kr os h
  | addNew form newId dr hfresh => exact Inv_addNew s form newId dr hfresh h

/-- C6: in every state reachable from startup (on a store whose row ids
are unique, as the PRIMARY KEY guarantees) through ticks and user
intents, every key of the registry map references a non-deleted row of
the store: no operation creates or keeps a handle for a soft-deleted
definition. -/
theorem C6_registry_keys_live (db : DB) (s : Tunneler)
    (hnd : (db.map Row.id).Nodup) (hre : Reachable (initState db) s) :
    ∀ id ∈ AMap.keys s.active_tunnels, ∃ r ∈ s.db, r.id = id ∧ r.deleted = false := by
  have hinv : Inv s := by
    induction hre with
    | refl => exact Inv_init db hnd
    | tail hsteps hstep ih => exact Inv_step hstep ih
  exact hinv.1

/-- Witness for C6: after starting tunnel 1 from a one-row store, the
single registered key references the live row. -/
theorem C6_registry_keys_live_witness :
    (([Row.mk 1 "db" "c" "h" "127.0.0.1" 3306 "r" 3306 false false] :
      DB).map Row.id).Nodup ∧
    (∀ id ∈ AMap.keys (toggle_tunnel
        (initState [Row.mk 1 "db" "c" "h" "127.0.0.1" 3306 "r" 3306 false false])
        1 (Except.ok ())
        (SpawnOutcome.spawned 42 ProbeResult.running)).state.active_tunnels,
      ∃ r ∈ (toggle_tunnel
        (initState [Row.mk 1 "db" "c" "h" "127.0.0.1" 3306 "r" 3306 false false])
        1 (Except.ok ())
        (SpawnOutcome.spawned 42 ProbeResult.running)).state.db,
        r.id = id ∧ r.deleted = false) :=
  ⟨by decide,
   C6_registry_keys_live
    [Row.mk 1 "db" "c" "h" "127.0.0.1" 3306 "r" 3306 false false] _ (by decide)
    (Relation.ReflTransGen.single (Step.toggleUI _ 1 (Except.ok ())
      (SpawnOutcome.spawned 42 ProbeResult.running)
      ⟨rowToTunnel (Row.mk 1 "db" "c" "h" "127.0.0.1" 3306 "r" 3306 false false),
        by decide, rfl, rfl⟩))⟩

end Onigiri
